import Mathlib

/-!
Shallow embedding of the degensafe-programs repository: the staking program
(current slot/epoch revision and the earlier flat-rate revision) and the five
vault variants (sol-vault, sol_deposit, lc_deposit, spl-token-vault, and the
order_deposit program).  Public keys are modelled as naturals with 0 standing
for `Pubkey::default()`; u64/u128 quantities are naturals with explicit bound
checks exactly where the source performs checked arithmetic; a Rust panic
(`.unwrap()` on a checked operation) or an Anchor account-validation failure
aborts the whole transaction, which the embedding models as an error result
carrying no post-state.
-/

deriving instance DecidableEq for Except

namespace DegenSafe

/-- Slots per year used by the stake program for reward calculations. -/
def SLOTS_PER_YEAR : Nat := 78840000

/-- Largest value representable in a u64. -/
def u64Max : Nat := 2 ^ 64 - 1

/-- First value not representable in a u128. -/
def u128Size : Nat := 2 ^ 128

/-- Rust `u128::checked_mul`: `none` models the overflow panic taken by
the source's `.unwrap()`. -/
def checkedMul128 (a b : Nat) : Option Nat :=
  if a * b < u128Size then some (a * b) else none

/-- A reward epoch of the stake program: a reward rate in basis points and
the slot at which it came into force. -/
structure RewardEpoch where
  reward_percentage : Nat
  start_slot : Nat
deriving DecidableEq

/-- The stake program's Pool account (current revision). -/
structure Pool where
  key : Nat
  token_mint : Nat
  reward_mint : Nat
  reward_vault : Nat
  owner : Nat
  total_staked : Nat
  reward_percentage : Nat
  is_active : Bool
  reward_epochs : List RewardEpoch
  last_reward_update_slot : Nat
  pool_id : Nat
deriving DecidableEq

/-- The stake program's UserStake account (current revision). -/
structure UserStake where
  owner : Nat
  pool : Nat
  amount : Nat
  last_staked_slot : Nat
  total_earned : Nat
  unclaimed : Nat
deriving DecidableEq

/-- Reward contribution of one epoch: `amount * rate` and `* duration` via
checked u128 multiplication, then division by `SLOTS_PER_YEAR` and by
10000, as in the source. -/
def epochAccumulate (amount rate duration : Nat) : Option Nat :=
  match checkedMul128 amount rate with
  | none => none
  | some x =>
    match checkedMul128 x duration with
    | none => none
    | some y => some (y / SLOTS_PER_YEAR / 10000)

/-- The epoch-walking loop of `UserStake::calculate_pending_reward`,
carrying `period_start` and the u128 accumulator `total`.  The source adds
each epoch reward with `checked_add(..).unwrap_or(total_reward)`, so an
accumulator overflow silently keeps the previous total. -/
def pendingLoop (amount current_slot : Nat) :
    List RewardEpoch → Nat → Nat → Option Nat
  | [], _, total => some total
  | e :: rest, period_start, total =>
    if e.start_slot > current_slot then some total
    else
      match rest with
      | next :: rest2 =>
        if next.start_slot ≤ period_start then
          pendingLoop amount current_slot (next :: rest2) period_start total
        else
          let period_end := min next.start_slot current_slot
          let effective_start := max period_start e.start_slot
          match (if effective_start < period_end then
                   (epochAccumulate amount e.reward_percentage (period_end - effective_start)).map
                     (fun r => if total + r < u128Size then total + r else total)
                 else some total) with
          | none => none
          | some total2 =>
            if current_slot ≤ period_end then some total2
            else pendingLoop amount current_slot (next :: rest2) period_end total2
      | [] =>
        let period_end := current_slot
        let effective_start := max period_start e.start_slot
        match (if effective_start < period_end then
                 (epochAccumulate amount e.reward_percentage (period_end - effective_start)).map
                   (fun r => if total + r < u128Size then total + r else total)
               else some total) with
        | none => none
        | some total2 =>
          if current_slot ≤ period_end then some total2
          else pendingLoop amount current_slot [] period_end total2

/-- `UserStake::calculate_pending_reward` of the current stake program:
elapsed slots via saturating subtraction, early return 0 when nothing
elapsed or nothing staked, epoch walk, and a final clamp of the u128 total
to `u64::MAX`.  A `none` result models the panic of a checked
multiplication inside the loop. -/
def calculate_pending_reward (u : UserStake) (p : Pool) (current_slot : Nat) :
    Option Nat :=
  let elapsed := current_slot - u.last_staked_slot
  if elapsed = 0 ∨ u.amount = 0 then some 0
  else
    (pendingLoop u.amount current_slot p.reward_epochs u.last_staked_slot 0).map
      (fun total => min total u64Max)

/-- Error and abort conditions of the stake program.  `panicOverflow` models
a Rust panic from `.unwrap()` on a failed checked operation;
`TransferFailed` models the SPL token transfer failing on insufficient
balance.  Both abort the transaction with no state change. -/
inductive StakeErr where
  | Unauthorized
  | StakingDisabled
  | InsufficientRewardVault
  | NoRewardsAvailable
  | InvalidPoolAssociation
  | TransferFailed
  | panicOverflow
deriving DecidableEq

/-- Post-state and transfers of a successful `withdraw_stake`. -/
structure WithdrawStakeResult where
  pool : Pool
  user_stake : UserStake
  principal_paid : Nat
  reward_paid : Nat
deriving DecidableEq

/-- `withdraw_stake` of the current stake program.  The Anchor account
constraints (`user_stake.owner == user`, `user_stake.pool == pool`) run
before the handler; the handler checks the pool is active and the amount is
covered, folds pending reward, pays the full reward only when the reward
vault covers it and otherwise parks the whole total in `unclaimed`. -/
def withdraw_stake (p : Pool) (u : UserStake) (caller current_slot : Nat)
    (pool_vault_amount reward_vault_amount amount : Nat) :
    Except StakeErr WithdrawStakeResult :=
  if u.owner ≠ caller then .error .Unauthorized
  else if u.pool ≠ p.key then .error .InvalidPoolAssociation
  else if ¬ p.is_active then .error .StakingDisabled
  else if u.amount < amount then .error .Unauthorized
  else
    match calculate_pending_reward u p current_slot with
    | none => .error .panicOverflow
    | some pending =>
      if u64Max < pending + u.unclaimed then .error .panicOverflow
      else
        let total_rewards := pending + u.unclaimed
        let reward_to_send :=
          if total_rewards ≤ reward_vault_amount then total_rewards else 0
        match (if 0 < reward_to_send then
                 (if u64Max < u.total_earned + reward_to_send then none
                  else some { u with
                              total_earned := u.total_earned + reward_to_send,
                              unclaimed := 0 })
               else some { u with unclaimed := total_rewards }) with
        | none => .error .panicOverflow
        | some u1 =>
          if p.total_staked < amount then .error .panicOverflow
          else if pool_vault_amount < amount then .error .TransferFailed
          else
            .ok { pool := { p with total_staked := p.total_staked - amount },
                  user_stake := { u1 with
                                  amount := u.amount - amount,
                                  last_staked_slot := current_slot },
                  principal_paid := amount,
                  reward_paid := reward_to_send }

/-- Post-state and transfer of a successful `claim_reward`. -/
structure ClaimRewardResult where
  pool : Pool
  user_stake : UserStake
  reward_paid : Nat
deriving DecidableEq

/-- `claim_reward` of the current stake program.  The pool account is taken
by immutable reference in the source and is returned unchanged; the user
stake gains the paid total in `total_earned`, clears `unclaimed` and stamps
`last_staked_slot`. -/
def claim_reward (p : Pool) (u : UserStake)
    (caller current_slot reward_vault_amount : Nat) :
    Except StakeErr ClaimRewardResult :=
  if u.owner ≠ caller then .error .Unauthorized
  else if u.pool ≠ p.key then .error .InvalidPoolAssociation
  else if ¬ p.is_active then .error .StakingDisabled
  else if ¬ (0 < u.amount ∨ 0 < u.unclaimed) then .error .NoRewardsAvailable
  else
    match calculate_pending_reward u p current_slot with
    | none => .error .panicOverflow
    | some pending =>
      if u64Max < pending + u.unclaimed then .error .panicOverflow
      else
        let total_reward := pending + u.unclaimed
        if total_reward = 0 then .error .NoRewardsAvailable
        else if reward_vault_amount < total_reward then .error .InsufficientRewardVault
        else if u64Max < u.total_earned + total_reward then .error .panicOverflow
        else
          .ok { pool := p,
                user_stake := { u with
                  total_earned := u.total_earned + total_reward,
                  unclaimed := 0,
                  last_staked_slot := current_slot },
                reward_paid := total_reward }

/-- Post-state of a successful `deposit_stake`. -/
structure DepositStakeResult where
  pool : Pool
  user_stake : UserStake
deriving DecidableEq

/-- `deposit_stake` of the current stake program: activity gate, token
transfer, first-time initialization or pool-association check plus reward
fold, then checked increments of the user stake amount and the pool's
`total_staked`. -/
def deposit_stake (p : Pool) (u : UserStake) (caller current_slot : Nat)
    (user_token_balance amount : Nat) : Except StakeErr DepositStakeResult :=
  if ¬ p.is_active then .error .StakingDisabled
  else if user_token_balance < amount then .error .TransferFailed
  else
    let afterReward : Except StakeErr UserStake :=
      if u.amount = 0 then
        if u.owner ≠ 0 then
          if u.pool ≠ p.key then .error .InvalidPoolAssociation
          else
            match calculate_pending_reward u p current_slot with
            | none => .error .panicOverflow
            | some pending =>
              if u64Max < u.unclaimed + pending then .error .panicOverflow
              else .ok { u with unclaimed := u.unclaimed + pending }
        else
          .ok { u with
                owner := caller, pool := p.key,
                total_earned := 0, unclaimed := 0 }
      else
        if u.pool ≠ p.key then .error .InvalidPoolAssociation
        else
          match calculate_pending_reward u p current_slot with
          | none => .error .panicOverflow
          | some pending =>
            if u64Max < u.unclaimed + pending then .error .panicOverflow
            else .ok { u with unclaimed := u.unclaimed + pending }
    match afterReward with
    | .error e => .error e
    | .ok u1 =>
      if u64Max < u1.amount + amount then .error .panicOverflow
      else if u64Max < p.total_staked + amount then .error .panicOverflow
      else
        .ok { pool := { p with total_staked := p.total_staked + amount },
              user_stake := { u1 with
                              amount := u1.amount + amount,
                              last_staked_slot := current_slot } }

/-- Pool account of the earlier flat-rate staking revision. -/
structure OldPool where
  key : Nat
  token_mint : Nat
  reward_mint : Nat
  reward_vault : Nat
  owner : Nat
  total_staked : Nat
  reward_percentage : Nat
  is_active : Bool
deriving DecidableEq

/-- UserStake account of the earlier flat-rate staking revision
(timestamps are i64 unix times). -/
structure OldUserStake where
  owner : Nat
  pool : Nat
  amount : Nat
  last_staked_time : Int
  total_earned : Nat
  unclaimed : Nat
deriving DecidableEq

/-- Seconds per year computed by the earlier revision: 365 * 24 * 60 * 60. -/
def SECONDS_PER_YEAR : Nat := 31536000

/-- `UserStake::calculate_pending_reward` of the earlier revision: one flat
rate over the whole elapsed wall-clock interval, divided by seconds per
year and then by 100. -/
def old_calculate_pending_reward (u : OldUserStake) (p : OldPool)
    (current_time : Int) : Option Nat :=
  let elapsed := current_time - u.last_staked_time
  if elapsed ≤ 0 ∨ u.amount = 0 then some 0
  else do
    let x ← checkedMul128 u.amount p.reward_percentage
    let y ← checkedMul128 x elapsed.toNat
    some (min (y / SECONDS_PER_YEAR / 100) u64Max)

/-- Post-state and transfers of a successful `withdraw_stake` in the
earlier revision. -/
structure OldWithdrawStakeResult where
  pool : OldPool
  user_stake : OldUserStake
  principal_paid : Nat
  reward_paid : Nat
deriving DecidableEq

/-- `withdraw_stake` of the earlier flat-rate revision: unlike the current
revision it hard-requires the reward vault to cover the whole reward
(`InsufficientRewardVault`) before it will release the staked principal. -/
def old_withdraw_stake (p : OldPool) (u : OldUserStake) (current_time : Int)
    (pool_vault_amount reward_vault_amount amount : Nat) :
    Except StakeErr OldWithdrawStakeResult :=
  if ¬ p.is_active then .error .StakingDisabled
  else if u.amount < amount then .error .Unauthorized
  else
    match old_calculate_pending_reward u p current_time with
    | none => .error .panicOverflow
    | some pending =>
      if u64Max < pending + u.unclaimed then .error .panicOverflow
      else
        let reward_to_send := pending + u.unclaimed
        if reward_vault_amount < reward_to_send then .error .InsufficientRewardVault
        else if u64Max < u.total_earned + reward_to_send then .error .panicOverflow
        else if p.total_staked < amount then .error .panicOverflow
        else if pool_vault_amount < amount then .error .TransferFailed
        else
          .ok { pool := { p with total_staked := p.total_staked - amount },
                user_stake := { u with
                  total_earned := u.total_earned + reward_to_send,
                  amount := u.amount - amount,
                  unclaimed := 0,
                  last_staked_time := current_time },
                principal_paid := amount,
                reward_paid := reward_to_send }

/-! Vault variants.  Deposit ledgers are modelled as association lists keyed
by the PDA seed tuple of the variant; an Anchor `init` on an already
existing PDA aborts account validation, modelled as a `DuplicateOrder`
error before the handler checks run.  `ConstraintViolation` models any
failing Anchor account constraint such as `has_one = authority`. -/

/-- VaultState of the hardened native-SOL vault (sol-vault). -/
structure SolVaultState where
  wallet_account : Nat
  authority : Nat
deriving DecidableEq

/-- DepositRecord of the sol-vault variant. -/
structure SolVaultRecord where
  order_id : String
  user : Nat
  sol_amount : Nat
deriving DecidableEq

/-- Errors of the sol-vault variant. -/
inductive SolVaultErr where
  | WalletNotSet
  | NoFunds
  | InvalidAmount
  | WalletAccountMissing
  | WalletAccountMismatch
  | OrderIdEmpty
  | DuplicateOrder
  | ConstraintViolation
  | TransferFailed
deriving DecidableEq

/-- Post-state of a successful sol-vault deposit. -/
structure SolVaultDepositResult where
  store : List ((Nat × String) × SolVaultRecord)
  vault_lamports : Nat
deriving DecidableEq

/-- `deposit` of the sol-vault variant: record PDA seeded by
`(depositor, order_id)`, rejects a zero amount and an empty order id, then
transfers the lamports and writes the record with the requested amount. -/
def solVaultDeposit (store : List ((Nat × String) × SolVaultRecord))
    (vault_lamports depositor depositor_lamports : Nat) (order_id : String)
    (amount : Nat) : Except SolVaultErr SolVaultDepositResult :=
  if (store.lookup (depositor, order_id)).isSome then .error .DuplicateOrder
  else if amount = 0 then .error .InvalidAmount
  else if order_id.isEmpty then .error .OrderIdEmpty
  else if depositor_lamports < amount then .error .TransferFailed
  else
    .ok { store := store ++ [((depositor, order_id), ⟨order_id, depositor, amount⟩)],
          vault_lamports := vault_lamports + amount }

/-- `withdraw` of the sol-vault variant: `has_one = authority`, wallet must
be configured, the wallet account passed in `remaining_accounts[0]` must
match the configured one, and the vault sweeps its balance minus the
rent-exempt minimum.  Returns the destination and the amount sent. -/
def solVaultWithdraw (st : SolVaultState) (vault_lamports rent_min caller : Nat)
    (remaining_first : Option Nat) : Except SolVaultErr (Nat × Nat) :=
  if caller ≠ st.authority then .error .ConstraintViolation
  else if st.wallet_account = 0 then .error .WalletNotSet
  else
    match remaining_first with
    | none => .error .WalletAccountMissing
    | some w =>
      if w ≠ st.wallet_account then .error .WalletAccountMismatch
      else
        let withdrawable := vault_lamports - rent_min
        if withdrawable = 0 then .error .NoFunds
        else .ok (st.wallet_account, withdrawable)

/-- VaultState of the permissive native-SOL vault (sol_deposit). -/
structure SolDepVaultState where
  wallet_account : Nat
  balance : Nat
  authority : Nat
deriving DecidableEq

/-- DepositRecord of the sol_deposit variant. -/
structure SolDepRecord where
  order_id : String
  user : Nat
  sol_amount : Nat
deriving DecidableEq

/-- Errors of the sol_deposit variant. -/
inductive SolDepErr where
  | WalletNotSet
  | NoFunds
  | InvalidAmount
  | DuplicateOrder
  | ConstraintViolation
  | TransferFailed
  | panicOverflow
deriving DecidableEq

/-- Post-state of a successful sol_deposit deposit. -/
structure SolDepDepositResult where
  vault_state : SolDepVaultState
  store : List (String × SolDepRecord)
  vault_lamports : Nat
deriving DecidableEq

/-- `deposit` of the sol_deposit variant: record PDA seeded by `order_id`
alone, `amount > 0` required, an empty order id accepted.  The
`vault_state.balance += amount` increment is a plain Rust `+=`.
Modelled from the spec: the build profile (the workspace Cargo.toml, which
is not under src/) decides whether `+=` panics or wraps on u64 overflow;
the spec mandates abort-on-overflow, so the increment is modelled as
checked. -/
def solDepDeposit (st : SolDepVaultState) (store : List (String × SolDepRecord))
    (vault_lamports depositor depositor_lamports : Nat) (order_id : String)
    (amount : Nat) : Except SolDepErr SolDepDepositResult :=
  if (store.lookup order_id).isSome then .error .DuplicateOrder
  else if amount = 0 then .error .InvalidAmount
  else if depositor_lamports < amount then .error .TransferFailed
  else if u64Max < st.balance + amount then .error .panicOverflow
  else
    .ok { vault_state := { st with balance := st.balance + amount },
          store := store ++ [(order_id, ⟨order_id, depositor, amount⟩)],
          vault_lamports := vault_lamports + amount }

/-- `withdraw` of the sol_deposit variant: `has_one = authority` and a
configured wallet are required, but the destination `wallet_account` is a
caller-supplied unchecked account that is never compared with the
configured `vault_state.wallet_account`; the entire vault lamport balance
is sent there with no rent floor kept.  Returns the new state, the
destination and the amount sent. -/
def solDepWithdraw (st : SolDepVaultState) (vault_lamports caller wallet_arg : Nat) :
    Except SolDepErr (SolDepVaultState × Nat × Nat) :=
  if caller ≠ st.authority then .error .ConstraintViolation
  else if st.wallet_account = 0 then .error .WalletNotSet
  else if vault_lamports = 0 then .error .NoFunds
  else .ok ({ st with balance := 0 }, wallet_arg, vault_lamports)

/-- VaultState of the permissive token vault (lc_deposit). -/
structure LcVaultState where
  authority : Nat
  token_mint : Nat
  wallet_account : Nat
  balance : Nat
deriving DecidableEq

/-- DepositRecord of the lc_deposit variant. -/
structure LcRecord where
  order_id : String
  user : Nat
  token_mint : Nat
  amount : Nat
deriving DecidableEq

/-- Errors of the lc_deposit variant. -/
inductive LcErr where
  | InvalidAmount
  | MintMismatch
  | NoFunds
  | WalletNotSet
  | Unauthorized
  | DuplicateOrder
  | ConstraintViolation
  | TransferFailed
  | panicOverflow
deriving DecidableEq

/-- Post-state of a successful lc_deposit deposit.  `vault_token_amount` is
the holding token account balance, credited with the actually received
amount; `record` is the ledger entry that was written. -/
structure LcDepositResult where
  vault_state : LcVaultState
  store : List ((Nat × String) × LcRecord)
  vault_token_amount : Nat
  record : LcRecord
deriving DecidableEq

/-- `deposit` of the lc_deposit variant: record PDA seeded by
`(token_mint, order_id)`, `amount > 0` required, empty order id accepted.
The SPL transfer may credit the vault with `received ≤ amount` for a
fee-on-transfer token; the source never re-reads the holding balance and
records the requested `amount`.  The `vault_state.balance += amount`
increment is a plain Rust `+=`.  Modelled from the spec: the build profile
(the workspace Cargo.toml, which is not under src/) decides whether `+=`
panics or wraps on u64 overflow; the spec mandates abort-on-overflow, so
the increment is modelled as checked. -/
def lcDeposit (st : LcVaultState) (store : List ((Nat × String) × LcRecord))
    (vault_token_amount user user_token_balance : Nat) (order_id : String)
    (amount received : Nat) : Except LcErr LcDepositResult :=
  if (store.lookup (st.token_mint, order_id)).isSome then .error .DuplicateOrder
  else if amount = 0 then .error .InvalidAmount
  else if user_token_balance < amount then .error .TransferFailed
  else if u64Max < st.balance + amount then .error .panicOverflow
  else
    let record : LcRecord := ⟨order_id, user, st.token_mint, amount⟩
    .ok { vault_state := { st with balance := st.balance + amount },
          store := store ++ [((st.token_mint, order_id), record)],
          vault_token_amount := vault_token_amount + received,
          record := record }

/-- `withdraw` of the lc_deposit variant: `has_one = authority` plus an
explicit authority equality check, wallet must be configured, and the
destination token account is constrained by Anchor to be the associated
token account owned by the configured `wallet_account`.  Sweeps the whole
on-chain token balance and resets the tracked balance.  Returns the new
state, the destination owner and the amount sent. -/
def lcWithdraw (st : LcVaultState) (vault_token_amount caller : Nat) :
    Except LcErr (LcVaultState × Nat × Nat) :=
  if caller ≠ st.authority then .error .ConstraintViolation
  else if st.wallet_account = 0 then .error .WalletNotSet
  else if st.authority ≠ caller then .error .Unauthorized
  else if vault_token_amount = 0 then .error .NoFunds
  else .ok ({ st with balance := 0 }, st.wallet_account, vault_token_amount)

/-- VaultState of the hardened token vault (spl-token-vault). -/
structure SplVaultState where
  authority : Nat
  token_mint : Nat
  wallet_account : Nat
deriving DecidableEq

/-- DepositRecord of the spl-token-vault variant. -/
structure SplRecord where
  order_id : String
  user : Nat
  token_mint : Nat
  amount : Nat
deriving DecidableEq

/-- Errors of the spl-token-vault variant. -/
inductive SplErr where
  | InvalidAmount
  | MintMismatch
  | NoFunds
  | WalletNotSet
  | Unauthorized
  | VaultNotEmpty
  | MathOverflow
  | InvalidWithdrawalWallet
  | InvalidAuthority
  | OrderIdEmpty
  | DuplicateOrder
  | ConstraintViolation
  | TransferFailed
deriving DecidableEq

/-- Post-state of a successful spl-token-vault deposit. -/
structure SplDepositResult where
  store : List ((Nat × Nat × String) × SplRecord)
  vault_token_amount : Nat
  record : SplRecord
deriving DecidableEq

/-- `deposit` of the spl-token-vault variant: record PDA seeded by
`(token_mint, user, order_id)`, rejects zero amount and empty order id,
captures the holding balance before the transfer, reloads it afterwards
and records `balance_after - balance_before` (the actually received
amount, which for a fee-on-transfer token is `received ≤ amount`). -/
def splDeposit (st : SplVaultState)
    (store : List ((Nat × Nat × String) × SplRecord))
    (vault_token_amount user user_token_balance : Nat) (order_id : String)
    (amount received : Nat) : Except SplErr SplDepositResult :=
  if (store.lookup (st.token_mint, user, order_id)).isSome then .error .DuplicateOrder
  else if amount = 0 then .error .InvalidAmount
  else if order_id.isEmpty then .error .OrderIdEmpty
  else if user_token_balance < amount then .error .TransferFailed
  else
    let balance_before := vault_token_amount
    let balance_after := vault_token_amount + received
    let actual := balance_after - balance_before
    let record : SplRecord := ⟨order_id, user, st.token_mint, actual⟩
    .ok { store := store ++ [((st.token_mint, user, order_id), record)],
          vault_token_amount := balance_after,
          record := record }

/-- `withdraw` of the spl-token-vault variant: `has_one = authority`,
wallet must be configured, destination constrained by Anchor to the
associated token account owned by the configured wallet; sweeps the whole
token balance.  Returns the destination owner and the amount sent. -/
def splWithdraw (st : SplVaultState) (vault_token_amount caller : Nat) :
    Except SplErr (Nat × Nat) :=
  if caller ≠ st.authority then .error .ConstraintViolation
  else if st.wallet_account = 0 then .error .WalletNotSet
  else if vault_token_amount = 0 then .error .NoFunds
  else .ok (st.wallet_account, vault_token_amount)

/-- `close_vault` of the spl-token-vault variant: Anchor `close = authority`
on both the vault state and the vault token account; the handler only
requires the token balance to be zero.  A successful call destroys the
vault state record and refunds its rent to the authority; `ok true` means
the vault state account was closed. -/
def splCloseVault (st : SplVaultState) (vault_token_amount caller : Nat) :
    Except SplErr Bool :=
  if caller ≠ st.authority then .error .ConstraintViolation
  else if vault_token_amount ≠ 0 then .error .VaultNotEmpty
  else .ok true

/-- Fixed deposit price of the order_deposit variant. -/
def PRICE : Nat := 2000000

/-- DepositAccount of the order_deposit variant (`exists_flag` embeds the
source's `exists` field, renamed because `exists` is reserved in Lean). -/
structure OrderRecord where
  order_id : String
  nonce : Nat
  exists_flag : Bool
  user : Nat
  amount : Nat
deriving DecidableEq

/-- Errors of the order_deposit variant. -/
inductive OrderErr where
  | AlreadyDeposited
  | NoTokensInVault
  | ConstraintViolation
  | TransferFailed
deriving DecidableEq

/-- Post-state of a successful order_deposit deposit. -/
structure OrderDepositResult where
  store : List ((String × Nat) × OrderRecord)
  vault_token_amount : Nat
deriving DecidableEq

/-- `deposit` of the order_deposit variant: the deposit account is
`init_if_needed` with PDA seeds `(order_id, nonce)`; the handler rejects
only when that account already exists with its `exists` flag set, then
transfers the fixed `PRICE` and writes the record.  There is no amount
argument and no order id validation. -/
def orderDeposit (store : List ((String × Nat) × OrderRecord))
    (vault_token_amount user user_token_balance : Nat) (order_id : String)
    (nonce : Nat) : Except OrderErr OrderDepositResult :=
  if ((store.lookup (order_id, nonce)).map OrderRecord.exists_flag).getD false then
    .error .AlreadyDeposited
  else if user_token_balance < PRICE then .error .TransferFailed
  else
    .ok { store := store ++ [((order_id, nonce), ⟨order_id, nonce, true, user, PRICE⟩)],
          vault_token_amount := vault_token_amount + PRICE }

/-- `withdraw` of the order_deposit variant: any signer may call it; the
receiver token account is caller-supplied and constrained only to be owned
by the caller; the entire vault balance is sent there.  Returns the
destination owner and the amount sent. -/
def orderWithdraw (caller receiver_owner vault_token_amount : Nat) :
    Except OrderErr (Nat × Nat) :=
  if receiver_owner ≠ caller then .error .ConstraintViolation
  else if vault_token_amount = 0 then .error .NoTokensInVault
  else .ok (receiver_owner, vault_token_amount)

/-- Reward contribution of one epoch of rate `rate` (basis points) over
`duration` slots for a stake of `amount`, as the specification words it:
`amount * rate * duration / (10000 * SLOTS_PER_YEAR)`. -/
def specEpochReward (amount rate duration : Nat) : Nat :=
  amount * rate * duration / (10000 * SLOTS_PER_YEAR)

end DegenSafe

namespace DegenSafe

/-- C2: for a UserStakeAccount with last accrual slot 0 and amount
1,000,000, and a pool with epochs {500 bps (5%) from slot 0} then
{1000 bps (10%) from slot 100}, `calculate_pending_reward` at slot 200
equals the 5% contribution over [0,100) plus the 10% contribution over
[100,200), each contribution being the specification's per-epoch formula. -/
theorem c2_epoch_splice_reward :
    calculate_pending_reward
      { owner := 1, pool := 9, amount := 1000000, last_staked_slot := 0,
        total_earned := 0, unclaimed := 0 }
      { key := 9, token_mint := 2, reward_mint := 3, reward_vault := 4,
        owner := 5, total_staked := 1000000, reward_percentage := 1000,
        is_active := true,
        reward_epochs := [⟨500, 0⟩, ⟨1000, 100⟩],
        last_reward_update_slot := 100, pool_id := 0 }
      200
      = some (specEpochReward 1000000 500 100 + specEpochReward 1000000 1000 100) := by
  decide

/-- C5: with a single epoch of rate `r` that started at or before the
stake's last accrual slot, `calculate_pending_reward` over `d` elapsed
slots equals `amount * r * d / (10000 * SLOTS_PER_YEAR)`, and that value
is monotone non-decreasing in the elapsed duration. -/
theorem c5_single_epoch_reward (a r s t0 d : Nat) (ha : 0 < a) (hs : s ≤ t0)
    (hfit : a * r * d < u128Size)
    (hres : specEpochReward a r d ≤ u64Max) :
    calculate_pending_reward
      { owner := 1, pool := 2, amount := a, last_staked_slot := t0,
        total_earned := 0, unclaimed := 0 }
      { key := 2, token_mint := 0, reward_mint := 0, reward_vault := 0,
        owner := 0, total_staked := 0, reward_percentage := r,
        is_active := true, reward_epochs := [⟨r, s⟩],
        last_reward_update_slot := s, pool_id := 0 }
      (t0 + d)
      = some (specEpochReward a r d)
    ∧ ∀ d1 d2, d1 ≤ d2 → specEpochReward a r d1 ≤ specEpochReward a r d2 := by
  constructor
  · by_cases hd : d = 0
    · subst hd
      simp [calculate_pending_reward, specEpochReward]
    · have hd0 : 0 < d := Nat.pos_of_ne_zero hd
      have har : a * r < u128Size :=
        lt_of_le_of_lt (Nat.le_mul_of_pos_right (a * r) hd0) hfit
      have helapsed : t0 + d - t0 = d := by omega
      have hv : a * r * d / SLOTS_PER_YEAR / 10000 < u128Size :=
        lt_of_le_of_lt
          (le_trans (Nat.div_le_self _ _) (Nat.div_le_self _ _)) hfit
      have hvid : a * r * d / SLOTS_PER_YEAR / 10000 = specEpochReward a r d := by
        rw [Nat.div_div_eq_div_mul, specEpochReward, Nat.mul_comm SLOTS_PER_YEAR 10000]
      simp only [calculate_pending_reward, helapsed]
      rw [if_neg (by simp [hd, Nat.pos_iff_ne_zero.mp ha])]
      simp only [pendingLoop]
      rw [if_neg (by omega)]
      have hmax : max t0 s = t0 := Nat.max_eq_left hs
      simp only [hmax]
      rw [if_pos (by omega)]
      simp [epochAccumulate, checkedMul128, helapsed, har, hfit, hv, hvid,
        Nat.min_eq_left hres]
      rw [if_pos (hvid ▸ hv)]
      exact inf_eq_left.mpr hres
  · intro d1 d2 h12
    exact Nat.div_le_div_right (Nat.mul_le_mul_left (a * r) h12)

/-- Witness for C5 at amount 10^9, rate 10000 bps, epoch start 0, last
accrual 0 and 78840 elapsed slots (the reward evaluates to 10^6). -/
theorem c5_single_epoch_reward_witness :
    calculate_pending_reward
      { owner := 1, pool := 2, amount := 1000000000, last_staked_slot := 0,
        total_earned := 0, unclaimed := 0 }
      { key := 2, token_mint := 0, reward_mint := 0, reward_vault := 0,
        owner := 0, total_staked := 0, reward_percentage := 10000,
        is_active := true, reward_epochs := [⟨10000, 0⟩],
        last_reward_update_slot := 0, pool_id := 0 }
      (0 + 78840)
      = some (specEpochReward 1000000000 10000 78840)
    ∧ ∀ d1 d2, d1 ≤ d2 →
        specEpochReward 1000000000 10000 d1 ≤ specEpochReward 1000000000 10000 d2 :=
  c5_single_epoch_reward 1000000000 10000 0 0 78840 (by decide) (by decide)
    (by decide) (by decide)

/-- C3 (amended, current revision): when the reward vault balance is below
pending-plus-unclaimed, `withdraw_stake` still succeeds, pays the full
principal and no reward at all, and parks the whole reward total in
`unclaimed`. -/
theorem c3_underfunded_withdraw_defers_reward
    (p : Pool) (u : UserStake) (caller current_slot : Nat)
    (pool_vault_amount reward_vault_amount amount pending : Nat)
    (hown : u.owner = caller) (hpool : u.pool = p.key)
    (hactive : p.is_active = true)
    (hamt : amount ≤ u.amount)
    (hpend : calculate_pending_reward u p current_slot = some pending)
    (hsum : pending + u.unclaimed ≤ u64Max)
    (hvault : reward_vault_amount < pending + u.unclaimed)
    (htot : amount ≤ p.total_staked)
    (hpv : amount ≤ pool_vault_amount) :
    withdraw_stake p u caller current_slot pool_vault_amount reward_vault_amount amount
      = .ok { pool := { p with total_staked := p.total_staked - amount },
              user_stake := { u with
                amount := u.amount - amount,
                unclaimed := pending + u.unclaimed,
                last_staked_slot := current_slot },
              principal_paid := amount,
              reward_paid := 0 } := by
  simp [withdraw_stake, hown, hpool, hactive, hpend,
    Nat.not_lt.mpr hamt, Nat.not_lt.mpr hsum, Nat.not_le.mpr hvault,
    Nat.not_lt.mpr htot, Nat.not_lt.mpr hpv]

/-- Witness for C3's amended theorem: a zero-rate pool, a stake of 100 with
7 unclaimed, a reward vault of 3 < 7, withdrawing 50. -/
theorem c3_underfunded_withdraw_defers_reward_witness :
    withdraw_stake
      { key := 1, token_mint := 2, reward_mint := 3, reward_vault := 4,
        owner := 5, total_staked := 100, reward_percentage := 0,
        is_active := true, reward_epochs := [⟨0, 0⟩],
        last_reward_update_slot := 0, pool_id := 0 }
      { owner := 6, pool := 1, amount := 100, last_staked_slot := 0,
        total_earned := 0, unclaimed := 7 }
      6 1000 100 3 50
      = .ok { pool := { key := 1, token_mint := 2, reward_mint := 3,
                        reward_vault := 4, owner := 5, total_staked := 50,
                        reward_percentage := 0, is_active := true,
                        reward_epochs := [⟨0, 0⟩],
                        last_reward_update_slot := 0, pool_id := 0 },
              user_stake := { owner := 6, pool := 1, amount := 50,
                              last_staked_slot := 1000, total_earned := 0,
                              unclaimed := 7 },
              principal_paid := 50,
              reward_paid := 0 } :=
  c3_underfunded_withdraw_defers_reward _ _ 6 1000 100 3 50 0
    rfl rfl rfl (by decide) (by decide) (by decide) (by decide) (by decide)
    (by decide)

/-- C3 counterexample (earlier flat-rate revision): with the pool active,
50 of 100 staked being withdrawn and the reward vault holding 3 while the
reward total is 7, `withdraw_stake` fails with `InsufficientRewardVault`
instead of returning the principal and parking the reward. -/
theorem c3_old_revision_counterexample :
    old_withdraw_stake
      { key := 1, token_mint := 2, reward_mint := 3, reward_vault := 4,
        owner := 5, total_staked := 100, reward_percentage := 0,
        is_active := true }
      { owner := 6, pool := 1, amount := 100, last_staked_time := 0,
        total_earned := 0, unclaimed := 7 }
      1000 100 3 50
      = .error .InsufficientRewardVault := by
  decide

/-- C10: a successful `claim_reward` returns the pool unchanged (hence its
total_staked, epoch history and current rate), keeps the user stake's
amount, owner and pool reference, increases `total_earned` by exactly the
paid amount, clears `unclaimed` and stamps the accrual slot. -/
theorem c10_claim_reward_frame
    (p : Pool) (u : UserStake) (caller current_slot reward_vault_amount : Nat)
    (res : ClaimRewardResult)
    (h : claim_reward p u caller current_slot reward_vault_amount = .ok res) :
    res.pool = p
    ∧ res.user_stake.amount = u.amount
    ∧ res.user_stake.owner = u.owner
    ∧ res.user_stake.pool = u.pool
    ∧ res.user_stake.total_earned = u.total_earned + res.reward_paid
    ∧ res.user_stake.unclaimed = 0
    ∧ res.user_stake.last_staked_slot = current_slot := by
  unfold claim_reward at h
  split_ifs at h with h1 h2 h3 h4 <;> try simp at h
  rcases hcp : calculate_pending_reward u p current_slot with _ | pending <;>
    rw [hcp] at h
  · simp at h
  · dsimp only at h
    split_ifs at h with h5 h6 h7 h8 <;> try simp at h
    subst h
    simp

/-- Pool used by the C10 witness. -/
def c10PoolW : Pool :=
  { key := 9, token_mint := 2, reward_mint := 3, reward_vault := 4,
    owner := 5, total_staked := 0, reward_percentage := 0,
    is_active := true, reward_epochs := [⟨0, 0⟩],
    last_reward_update_slot := 0, pool_id := 0 }

/-- User stake used by the C10 witness (5 unclaimed units, nothing staked). -/
def c10UserW : UserStake :=
  { owner := 6, pool := 9, amount := 0, last_staked_slot := 0,
    total_earned := 0, unclaimed := 5 }

/-- Result of the C10 witness run of `claim_reward`. -/
def c10ResW : ClaimRewardResult :=
  { pool := c10PoolW,
    user_stake := { owner := 6, pool := 9, amount := 0,
                    last_staked_slot := 100, total_earned := 5,
                    unclaimed := 0 },
    reward_paid := 5 }

/-- Witness for C10: claiming 5 unclaimed units against a funded vault. -/
theorem c10_claim_reward_frame_witness :
    c10ResW.pool = c10PoolW
    ∧ c10ResW.user_stake.amount = c10UserW.amount
    ∧ c10ResW.user_stake.owner = c10UserW.owner
    ∧ c10ResW.user_stake.pool = c10UserW.pool
    ∧ c10ResW.user_stake.total_earned = c10UserW.total_earned + c10ResW.reward_paid
    ∧ c10ResW.user_stake.unclaimed = 0
    ∧ c10ResW.user_stake.last_staked_slot = 100 :=
  c10_claim_reward_frame c10PoolW c10UserW 6 100 10 c10ResW (by decide)

/-- C9: an addition that would overflow a balance total aborts the whole
operation instead of wrapping.  First conjunct: `deposit_stake` with a
prior `total_staked` near the u64 maximum errors out (the source's
`checked_add(..).unwrap()` panics, so no post-state exists).  Second
and third conjuncts: the lc_deposit and sol_deposit vault balance
increments likewise abort (modelled from the spec for the
build-profile-dependent `+=`, see `lcDeposit` and `solDepDeposit`). -/
theorem c9_overflow_aborts :
    (∀ (p : Pool) (u : UserStake)
        (caller current_slot user_token_balance amount : Nat),
        p.is_active = true → u.amount = 0 → u.owner = 0 →
        amount ≤ user_token_balance → amount ≤ u64Max →
        u64Max < p.total_staked + amount →
        deposit_stake p u caller current_slot user_token_balance amount
          = .error .panicOverflow)
    ∧ (∀ (st : LcVaultState) (store : List ((Nat × String) × LcRecord))
          (vault_token_amount user user_token_balance : Nat)
          (order_id : String) (amount received : Nat),
        (store.lookup (st.token_mint, order_id)).isSome = false →
        amount ≠ 0 → amount ≤ user_token_balance →
        u64Max < st.balance + amount →
        lcDeposit st store vault_token_amount user user_token_balance
            order_id amount received
          = .error .panicOverflow)
    ∧ (∀ (st : SolDepVaultState) (store : List (String × SolDepRecord))
          (vault_lamports depositor depositor_lamports : Nat)
          (order_id : String) (amount : Nat),
        (store.lookup order_id).isSome = false →
        amount ≠ 0 → amount ≤ depositor_lamports →
        u64Max < st.balance + amount →
        solDepDeposit st store vault_lamports depositor depositor_lamports
            order_id amount
          = .error .panicOverflow) := by
  refine ⟨?_, ?_, ?_⟩
  · intro p u caller cs utb amount hact hu0 howner htb hamt hover
    simp [deposit_stake, hact, hu0, howner, Nat.not_lt.mpr htb, hover,
      Nat.not_lt.mpr hamt]
  · intro st store vta user utb oid amount received hdup hne htb hover
    simp [lcDeposit, hdup, hne, Nat.not_lt.mpr htb, hover]
  · intro st store vl depositor dl oid amount hdup hne htb hover
    simp [solDepDeposit, hdup, hne, Nat.not_lt.mpr htb, hover]

/-- Pool used by the C9 witness, with `total_staked` at the u64 maximum. -/
def c9PoolW : Pool :=
  { key := 1, token_mint := 2, reward_mint := 3, reward_vault := 4,
    owner := 5, total_staked := 18446744073709551615,
    reward_percentage := 0, is_active := true, reward_epochs := [⟨0, 0⟩],
    last_reward_update_slot := 0, pool_id := 0 }

/-- Fresh user stake used by the C9 witness. -/
def c9UserW : UserStake :=
  { owner := 0, pool := 0, amount := 0, last_staked_slot := 0,
    total_earned := 0, unclaimed := 0 }

/-- lc_deposit vault state used by the C9 witness, with the tracked balance
at the u64 maximum. -/
def c9LcW : LcVaultState :=
  { authority := 5, token_mint := 2, wallet_account := 7,
    balance := 18446744073709551615 }

/-- sol_deposit vault state used by the C9 witness, with the tracked
balance at the u64 maximum. -/
def c9SolDepW : SolDepVaultState :=
  { wallet_account := 7, balance := 18446744073709551615, authority := 5 }

/-- Witness for C9: staking 1 against a pool whose total is already at the
u64 maximum aborts, and a deposit of 1 into an lc or sol_deposit vault
with a maxed tracked balance aborts. -/
theorem c9_overflow_aborts_witness :
    deposit_stake c9PoolW c9UserW 6 10 1 1 = .error .panicOverflow
    ∧ lcDeposit c9LcW [] 0 7 1 "x" 1 1 = .error .panicOverflow
    ∧ solDepDeposit c9SolDepW [] 0 8 1 "x" 1 = .error .panicOverflow :=
  ⟨c9_overflow_aborts.1 c9PoolW c9UserW 6 10 1 1 rfl rfl rfl (by decide)
      (by decide) (by decide),
    c9_overflow_aborts.2.1 c9LcW [] 0 7 1 "x" 1 1 (by decide) (by decide)
      (by decide) (by decide),
    c9_overflow_aborts.2.2 c9SolDepW [] 0 8 1 "x" 1 (by decide) (by decide)
      (by decide) (by decide)⟩

/-- C1 counterexample: the order_deposit variant's withdraw succeeds for
arbitrary callers (1 and 2), neither of which is any configured authority,
and pays the entire vault balance to the receiver account each caller
chose (owned by themselves); and in the sol_deposit variant even the
authority (3) can direct the sweep to a caller-supplied account (42) that
differs from the configured withdrawal wallet (7). -/
theorem c1_withdraw_counterexample :
    orderWithdraw 1 1 5 = .ok (1, 5)
    ∧ orderWithdraw 2 2 5 = .ok (2, 5)
    ∧ solDepWithdraw { wallet_account := 7, balance := 100, authority := 3 }
        100 3 42
        = .ok ({ wallet_account := 7, balance := 0, authority := 3 }, 42, 100) := by
  decide

/-- C1 (amended): sol-vault, lc_deposit and spl-token-vault withdraw only
for the authority, fail `WalletNotSet` without a configured destination
and `NoFunds` on a zero sweepable balance, and sweep the entire balance
(sol-vault: minus the rent-exempt floor) to the configured destination.
The sol_deposit withdraw is authority-gated with the same two errors but
sends the entire lamport balance, without a rent floor, to the
caller-supplied wallet argument; the order_deposit withdraw has no
authority gate and pays the whole balance to the caller's own receiver. -/
theorem c1_withdraw_amended :
    (∀ (st : SolVaultState) (vb rm caller : Nat) (w : Option Nat) (dest amt : Nat),
        solVaultWithdraw st vb rm caller w = .ok (dest, amt) →
        caller = st.authority ∧ st.wallet_account ≠ 0
          ∧ dest = st.wallet_account ∧ amt = vb - rm ∧ 0 < amt)
    ∧ (∀ (st : SolVaultState) (vb rm caller : Nat) (w : Option Nat),
        caller = st.authority → st.wallet_account = 0 →
        solVaultWithdraw st vb rm caller w = .error .WalletNotSet)
    ∧ (∀ (st : SolVaultState) (vb rm caller : Nat),
        caller = st.authority → st.wallet_account ≠ 0 → vb - rm = 0 →
        solVaultWithdraw st vb rm caller (some st.wallet_account)
          = .error .NoFunds)
    ∧ (∀ (st : LcVaultState) (vta caller : Nat) (st2 : LcVaultState) (dest amt : Nat),
        lcWithdraw st vta caller = .ok (st2, dest, amt) →
        caller = st.authority ∧ st.wallet_account ≠ 0
          ∧ dest = st.wallet_account ∧ amt = vta ∧ 0 < vta ∧ st2.balance = 0)
    ∧ (∀ (st : LcVaultState) (vta caller : Nat),
        caller = st.authority → st.wallet_account = 0 →
        lcWithdraw st vta caller = .error .WalletNotSet)
    ∧ (∀ (st : LcVaultState) (caller : Nat),
        caller = st.authority → st.wallet_account ≠ 0 →
        lcWithdraw st 0 caller = .error .NoFunds)
    ∧ (∀ (st : SplVaultState) (vta caller dest amt : Nat),
        splWithdraw st vta caller = .ok (dest, amt) →
        caller = st.authority ∧ st.wallet_account ≠ 0
          ∧ dest = st.wallet_account ∧ amt = vta ∧ 0 < vta)
    ∧ (∀ (st : SplVaultState) (vta caller : Nat),
        caller = st.authority → st.wallet_account = 0 →
        splWithdraw st vta caller = .error .WalletNotSet)
    ∧ (∀ (st : SplVaultState) (caller : Nat),
        caller = st.authority → st.wallet_account ≠ 0 →
        splWithdraw st 0 caller = .error .NoFunds)
    ∧ (∀ (st : SolDepVaultState) (vl caller warg : Nat)
          (st2 : SolDepVaultState) (dest amt : Nat),
        solDepWithdraw st vl caller warg = .ok (st2, dest, amt) →
        caller = st.authority ∧ st.wallet_account ≠ 0
          ∧ dest = warg ∧ amt = vl ∧ 0 < amt ∧ st2.balance = 0)
    ∧ (∀ (st : SolDepVaultState) (vl caller warg : Nat),
        caller = st.authority → st.wallet_account = 0 →
        solDepWithdraw st vl caller warg = .error .WalletNotSet)
    ∧ (∀ (st : SolDepVaultState) (caller warg : Nat),
        caller = st.authority → st.wallet_account ≠ 0 →
        solDepWithdraw st 0 caller warg = .error .NoFunds)
    ∧ (∀ (caller recv vta dest amt : Nat),
        orderWithdraw caller recv vta = .ok (dest, amt) →
        dest = recv ∧ recv = caller ∧ amt = vta ∧ 0 < vta) := by
  refine ⟨?_, ?_, ?_, ?_, ?_, ?_, ?_, ?_, ?_, ?_, ?_, ?_, ?_⟩
  · intro st vb rm caller w dest amt h
    unfold solVaultWithdraw at h
    rcases w with _ | w' <;> dsimp only at h <;> split_ifs at h <;>
      simp_all [Nat.pos_iff_ne_zero]
  · intro st vb rm caller w hc hw
    simp [solVaultWithdraw, hc, hw]
  · intro st vb rm caller hc hw hvb
    simp [solVaultWithdraw, hc, hw, hvb]
  · intro st vta caller st2 dest amt h
    unfold lcWithdraw at h
    split_ifs at h <;> simp_all [Nat.pos_iff_ne_zero]
    rcases h with ⟨h1, -, -⟩
    rw [← h1]
  · intro st vta caller hc hw
    simp [lcWithdraw, hc, hw]
  · intro st caller hc hw
    simp [lcWithdraw, hc, hw]
  · intro st vta caller dest amt h
    unfold splWithdraw at h
    split_ifs at h <;> simp_all [Nat.pos_iff_ne_zero]
  · intro st vta caller hc hw
    simp [splWithdraw, hc, hw]
  · intro st caller hc hw
    simp [splWithdraw, hc, hw]
  · intro st vl caller warg st2 dest amt h
    unfold solDepWithdraw at h
    split_ifs at h <;> simp_all [Nat.pos_iff_ne_zero]
    rcases h with ⟨h1, -, -⟩
    rw [← h1]
  · intro st vl caller warg hc hw
    simp [solDepWithdraw, hc, hw]
  · intro st caller warg hc hw
    simp [solDepWithdraw, hc, hw]
  · intro caller recv vta dest amt h
    unfold orderWithdraw at h
    split_ifs at h <;> simp_all [Nat.pos_iff_ne_zero]

/-- Witness for C1's amended theorem: one successful withdraw per variant
at concrete inputs, plus sol_deposit's NoFunds rejection on an empty
vault. -/
theorem c1_withdraw_amended_witness :
    ((1 : Nat) = 1 ∧ (5 : Nat) ≠ 0 ∧ (5 : Nat) = 5 ∧ (90 : Nat) = 100 - 10
        ∧ (0 : Nat) < 90)
    ∧ ((1 : Nat) = 1 ∧ (5 : Nat) ≠ 0 ∧ (5 : Nat) = 5 ∧ (40 : Nat) = 40
        ∧ (0 : Nat) < 40 ∧ (0 : Nat) = 0)
    ∧ ((1 : Nat) = 1 ∧ (5 : Nat) ≠ 0 ∧ (5 : Nat) = 5 ∧ (40 : Nat) = 40
        ∧ (0 : Nat) < 40)
    ∧ ((3 : Nat) = 3 ∧ (7 : Nat) ≠ 0 ∧ (42 : Nat) = 42 ∧ (100 : Nat) = 100
        ∧ (0 : Nat) < 100 ∧ (0 : Nat) = 0)
    ∧ solDepWithdraw ⟨7, 100, 3⟩ 0 3 42 = .error .NoFunds
    ∧ ((9 : Nat) = 9 ∧ (9 : Nat) = 9 ∧ (5 : Nat) = 5 ∧ (0 : Nat) < 5) :=
  ⟨c1_withdraw_amended.1 ⟨5, 1⟩ 100 10 1 (some 5) 5 90 (by decide),
    c1_withdraw_amended.2.2.2.1 ⟨1, 2, 5, 33⟩ 40 1 ⟨1, 2, 5, 0⟩ 5 40 (by decide),
    c1_withdraw_amended.2.2.2.2.2.2.1 ⟨1, 2, 5⟩ 40 1 5 40 (by decide),
    c1_withdraw_amended.2.2.2.2.2.2.2.2.2.1 ⟨7, 100, 3⟩ 100 3 42 ⟨7, 0, 3⟩ 42 100
      (by decide),
    c1_withdraw_amended.2.2.2.2.2.2.2.2.2.2.2.1 ⟨7, 100, 3⟩ 3 42 rfl (by decide),
    c1_withdraw_amended.2.2.2.2.2.2.2.2.2.2.2.2 9 9 5 9 5 (by decide)⟩

/-- C7 counterexample: `close_vault` of the spl-token-vault (the hardened
token revision) succeeds for the authority on an empty vault, destroying
the vault state record (`ok true` means the account was closed and its
rent refunded). -/
theorem c7_close_vault_counterexample :
    splCloseVault { authority := 4, token_mint := 2, wallet_account := 7 } 0 4
      = .ok true := by
  decide

/-- C7 (amended): the spl-token-vault variant does let its vault state be
destroyed, but only by the vault authority and only once the vault token
balance is zero. -/
theorem c7_close_vault_amended (st : SplVaultState) (vta caller : Nat) :
    splCloseVault st vta caller = .ok true
      ↔ caller = st.authority ∧ vta = 0 := by
  unfold splCloseVault
  split_ifs with h1 h2 <;> simp_all

/-- C4 counterexample: in the order_deposit variant two deposits with the
same depositor and order id but different nonces both succeed, leaving two
ledger entries for the same (asset, depositor, order_id) key. -/
theorem c4_duplicate_order_counterexample :
    orderDeposit [] 0 8 2000000 "ord" 0
      = .ok { store := [(("ord", 0), ⟨"ord", 0, true, 8, 2000000⟩)],
              vault_token_amount := 2000000 }
    ∧ orderDeposit [(("ord", 0), ⟨"ord", 0, true, 8, 2000000⟩)]
        2000000 8 2000000 "ord" 1
      = .ok { store := [(("ord", 0), ⟨"ord", 0, true, 8, 2000000⟩),
                        (("ord", 1), ⟨"ord", 1, true, 8, 2000000⟩)],
              vault_token_amount := 4000000 } := by
  decide

/-- C4 (amended): a second deposit under each variant's actual ledger key
fails before the handler runs, so no entry is created and no balance
changes: sol-vault keys by (depositor, order_id), spl-token-vault by
(mint, user, order_id), lc_deposit by (mint, order_id), sol_deposit by
order_id alone, and order_deposit by (order_id, nonce) — only the latter
admits a second entry for one (asset, depositor, order_id) by varying the
nonce. -/
theorem c4_idempotent_deposits_amended :
    (∀ (store : List ((Nat × String) × SolVaultRecord))
        (vl depositor dl : Nat) (oid : String) (amount : Nat),
        (store.lookup (depositor, oid)).isSome = true →
        solVaultDeposit store vl depositor dl oid amount
          = .error .DuplicateOrder)
    ∧ (∀ (st : SplVaultState) (store : List ((Nat × Nat × String) × SplRecord))
          (vta user utb : Nat) (oid : String) (amount received : Nat),
        (store.lookup (st.token_mint, user, oid)).isSome = true →
        splDeposit st store vta user utb oid amount received
          = .error .DuplicateOrder)
    ∧ (∀ (st : LcVaultState) (store : List ((Nat × String) × LcRecord))
          (vta user utb : Nat) (oid : String) (amount received : Nat),
        (store.lookup (st.token_mint, oid)).isSome = true →
        lcDeposit st store vta user utb oid amount received
          = .error .DuplicateOrder)
    ∧ (∀ (st : SolDepVaultState) (store : List (String × SolDepRecord))
          (vl depositor dl : Nat) (oid : String) (amount : Nat),
        (store.lookup oid).isSome = true →
        solDepDeposit st store vl depositor dl oid amount
          = .error .DuplicateOrder)
    ∧ (∀ (store : List ((String × Nat) × OrderRecord))
          (vta user utb : Nat) (oid : String) (nonce : Nat),
        ((store.lookup (oid, nonce)).map OrderRecord.exists_flag).getD false
          = true →
        orderDeposit store vta user utb oid nonce
          = .error .AlreadyDeposited) := by
  refine ⟨?_, ?_, ?_, ?_, ?_⟩
  · intro store vl depositor dl oid amount h
    simp [solVaultDeposit, h]
  · intro st store vta user utb oid amount received h
    simp [splDeposit, h]
  · intro st store vta user utb oid amount received h
    simp [lcDeposit, h]
  · intro st store vl depositor dl oid amount h
    simp [solDepDeposit, h]
  · intro store vta user utb oid nonce h
    simp [orderDeposit, h]

/-- Witness for C4's amended theorem: a repeat deposit under each variant's
ledger key on a one-entry store fails with the duplicate error. -/
theorem c4_idempotent_deposits_amended_witness :
    solVaultDeposit [((8, "o"), ⟨"o", 8, 5⟩)] 5 8 9 "o" 3
      = .error .DuplicateOrder
    ∧ splDeposit ⟨1, 2, 7⟩ [((2, 8, "o"), ⟨"o", 8, 2, 5⟩)] 5 8 9 "o" 3 3
      = .error .DuplicateOrder
    ∧ lcDeposit ⟨1, 2, 7, 5⟩ [((2, "o"), ⟨"o", 8, 2, 5⟩)] 5 8 9 "o" 3 3
      = .error .DuplicateOrder
    ∧ solDepDeposit ⟨7, 5, 1⟩ [("o", ⟨"o", 8, 5⟩)] 5 8 9 "o" 3
      = .error .DuplicateOrder
    ∧ orderDeposit [(("o", 0), ⟨"o", 0, true, 8, 2000000⟩)] 5 8 2000000 "o" 0
      = .error .AlreadyDeposited :=
  ⟨c4_idempotent_deposits_amended.1 [((8, "o"), ⟨"o", 8, 5⟩)] 5 8 9 "o" 3
      (by decide),
    c4_idempotent_deposits_amended.2.1 ⟨1, 2, 7⟩ [((2, 8, "o"), ⟨"o", 8, 2, 5⟩)]
      5 8 9 "o" 3 3 (by decide),
    c4_idempotent_deposits_amended.2.2.1 ⟨1, 2, 7, 5⟩ [((2, "o"), ⟨"o", 8, 2, 5⟩)]
      5 8 9 "o" 3 3 (by decide),
    c4_idempotent_deposits_amended.2.2.2.1 ⟨7, 5, 1⟩ [("o", ⟨"o", 8, 5⟩)]
      5 8 9 "o" 3 (by decide),
    c4_idempotent_deposits_amended.2.2.2.2 [(("o", 0), ⟨"o", 0, true, 8, 2000000⟩)]
      5 8 2000000 "o" 0 (by decide)⟩

/-- C6 counterexample: an lc_deposit requesting 10 of which the vault
actually receives 9 (a fee-on-transfer token) records 10 in the ledger
entry while the holding account delta is 9. -/
theorem c6_recorded_amount_counterexample :
    lcDeposit { authority := 1, token_mint := 2, wallet_account := 7, balance := 0 }
      [] 100 8 50 "ord" 10 9
      = .ok { vault_state := { authority := 1, token_mint := 2,
                               wallet_account := 7, balance := 10 },
              store := [((2, "ord"), ⟨"ord", 8, 2, 10⟩)],
              vault_token_amount := 109,
              record := ⟨"ord", 8, 2, 10⟩ }
    ∧ (109 : Nat) - 100 = 9 ∧ (10 : Nat) ≠ 9 := by
  decide

/-- C6 (amended): only the spl-token-vault deposit records the actually
received amount, computed as the holding balance after the transfer minus
the balance before; the lc_deposit variant records the caller-requested
amount; in the native sol-vault and sol_deposit variants the recorded
requested amount always equals the lamport delta of the holding account
(native transfers credit exactly the requested lamports). -/
theorem c6_recorded_amount_amended :
    (∀ (st : SplVaultState) (store : List ((Nat × Nat × String) × SplRecord))
        (vta user utb : Nat) (oid : String) (amount received : Nat)
        (res : SplDepositResult),
        splDeposit st store vta user utb oid amount received = .ok res →
        res.record.amount = res.vault_token_amount - vta
          ∧ res.vault_token_amount = vta + received)
    ∧ (∀ (st : LcVaultState) (store : List ((Nat × String) × LcRecord))
          (vta user utb : Nat) (oid : String) (amount received : Nat)
          (res : LcDepositResult),
        lcDeposit st store vta user utb oid amount received = .ok res →
        res.record.amount = amount
          ∧ res.vault_token_amount = vta + received)
    ∧ (∀ (store : List ((Nat × String) × SolVaultRecord))
          (vl depositor dl : Nat) (oid : String) (amount : Nat)
          (res : SolVaultDepositResult),
        solVaultDeposit store vl depositor dl oid amount = .ok res →
        res.vault_lamports - vl = amount
          ∧ res.store = store ++ [((depositor, oid), ⟨oid, depositor, amount⟩)])
    ∧ (∀ (st : SolDepVaultState) (store : List (String × SolDepRecord))
          (vl depositor dl : Nat) (oid : String) (amount : Nat)
          (res : SolDepDepositResult),
        solDepDeposit st store vl depositor dl oid amount = .ok res →
        res.vault_lamports - vl = amount
          ∧ res.store = store ++ [(oid, ⟨oid, depositor, amount⟩)]) := by
  refine ⟨?_, ?_, ?_, ?_⟩
  · intro st store vta user utb oid amount received res h
    unfold splDeposit at h
    split_ifs at h <;> simp_all
    subst h
    simp
  · intro st store vta user utb oid amount received res h
    unfold lcDeposit at h
    split_ifs at h <;> simp_all
    subst h
    simp
  · intro store vl depositor dl oid amount res h
    unfold solVaultDeposit at h
    split_ifs at h <;> simp_all
    subst h
    simp
  · intro st store vl depositor dl oid amount res h
    unfold solDepDeposit at h
    split_ifs at h <;> simp_all
    subst h
    simp

/-- Witness for C6's amended theorem: concrete deposits in each of the
four covered variants. -/
theorem c6_recorded_amount_amended_witness :
    ((({ store := [((2, 8, "o"), ⟨"o", 8, 2, 9⟩)], vault_token_amount := 109,
         record := ⟨"o", 8, 2, 9⟩ } : SplDepositResult)).record.amount
        = ({ store := [((2, 8, "o"), ⟨"o", 8, 2, 9⟩)], vault_token_amount := 109,
             record := ⟨"o", 8, 2, 9⟩ } : SplDepositResult).vault_token_amount - 100
      ∧ ({ store := [((2, 8, "o"), ⟨"o", 8, 2, 9⟩)], vault_token_amount := 109,
           record := ⟨"o", 8, 2, 9⟩ } : SplDepositResult).vault_token_amount
          = 100 + 9)
    ∧ ((({ vault_state := ⟨1, 2, 7, 10⟩, store := [((2, "o"), ⟨"o", 8, 2, 10⟩)],
           vault_token_amount := 109,
           record := ⟨"o", 8, 2, 10⟩ } : LcDepositResult)).record.amount = 10
      ∧ ({ vault_state := ⟨1, 2, 7, 10⟩, store := [((2, "o"), ⟨"o", 8, 2, 10⟩)],
           vault_token_amount := 109,
           record := ⟨"o", 8, 2, 10⟩ } : LcDepositResult).vault_token_amount
          = 100 + 9)
    ∧ ((({ store := [((8, "o"), ⟨"o", 8, 10⟩)],
           vault_lamports := 110 } : SolVaultDepositResult)).vault_lamports - 100 = 10
      ∧ ({ store := [((8, "o"), ⟨"o", 8, 10⟩)],
           vault_lamports := 110 } : SolVaultDepositResult).store
          = [] ++ [((8, "o"), ⟨"o", 8, 10⟩)])
    ∧ ((({ vault_state := ⟨7, 10, 1⟩, store := [("o", ⟨"o", 8, 10⟩)],
           vault_lamports := 110 } : SolDepDepositResult)).vault_lamports - 100 = 10
      ∧ ({ vault_state := ⟨7, 10, 1⟩, store := [("o", ⟨"o", 8, 10⟩)],
           vault_lamports := 110 } : SolDepDepositResult).store
          = [] ++ [("o", ⟨"o", 8, 10⟩)]) :=
  ⟨c6_recorded_amount_amended.1 ⟨1, 2, 7⟩ [] 100 8 50 "o" 10 9 _ (by decide),
    c6_recorded_amount_amended.2.1 ⟨1, 2, 7, 0⟩ [] 100 8 50 "o" 10 9 _ (by decide),
    c6_recorded_amount_amended.2.2.1 [] 100 8 50 "o" 10 _ (by decide),
    c6_recorded_amount_amended.2.2.2 ⟨7, 0, 1⟩ [] 100 8 50 "o" 10 _ (by decide)⟩

/-- C8 counterexample: deposits with an empty order id and a positive
amount succeed in the lc_deposit and sol_deposit variants. -/
theorem c8_empty_order_id_counterexample :
    lcDeposit { authority := 1, token_mint := 2, wallet_account := 7, balance := 0 }
      [] 0 8 1 "" 1 1
      = .ok { vault_state := { authority := 1, token_mint := 2,
                               wallet_account := 7, balance := 1 },
              store := [((2, ""), ⟨"", 8, 2, 1⟩)],
              vault_token_amount := 1,
              record := ⟨"", 8, 2, 1⟩ }
    ∧ solDepDeposit { wallet_account := 7, balance := 0, authority := 1 }
        [] 0 8 1 "" 1
      = .ok { vault_state := { wallet_account := 7, balance := 1, authority := 1 },
              store := [("", ⟨"", 8, 1⟩)],
              vault_lamports := 1 } := by
  decide

/-- C8 (amended): every variant that takes an amount argument (sol-vault,
spl-token-vault, lc_deposit, sol_deposit) rejects `amount == 0` before any
transfer or state change, and sol-vault and spl-token-vault additionally
reject an empty order id; lc_deposit and sol_deposit accept an empty order
id, and the order_deposit variant takes no amount and validates neither. -/
theorem c8_deposit_validation_amended :
    (∀ (store : List ((Nat × String) × SolVaultRecord))
        (vl depositor dl : Nat) (oid : String),
        (store.lookup (depositor, oid)).isSome = false →
        solVaultDeposit store vl depositor dl oid 0 = .error .InvalidAmount)
    ∧ (∀ (store : List ((Nat × String) × SolVaultRecord))
          (vl depositor dl : Nat) (amount : Nat),
        (store.lookup (depositor, "")).isSome = false → amount ≠ 0 →
        solVaultDeposit store vl depositor dl "" amount = .error .OrderIdEmpty)
    ∧ (∀ (st : SplVaultState) (store : List ((Nat × Nat × String) × SplRecord))
          (vta user utb : Nat) (oid : String) (received : Nat),
        (store.lookup (st.token_mint, user, oid)).isSome = false →
        splDeposit st store vta user utb oid 0 received = .error .InvalidAmount)
    ∧ (∀ (st : SplVaultState) (store : List ((Nat × Nat × String) × SplRecord))
          (vta user utb : Nat) (amount received : Nat),
        (store.lookup (st.token_mint, user, "")).isSome = false → amount ≠ 0 →
        splDeposit st store vta user utb "" amount received
          = .error .OrderIdEmpty)
    ∧ (∀ (st : LcVaultState) (store : List ((Nat × String) × LcRecord))
          (vta user utb : Nat) (oid : String) (received : Nat),
        (store.lookup (st.token_mint, oid)).isSome = false →
        lcDeposit st store vta user utb oid 0 received = .error .InvalidAmount)
    ∧ (∀ (st : SolDepVaultState) (store : List (String × SolDepRecord))
          (vl depositor dl : Nat) (oid : String),
        (store.lookup oid).isSome = false →
        solDepDeposit st store vl depositor dl oid 0
          = .error .InvalidAmount) := by
  refine ⟨?_, ?_, ?_, ?_, ?_, ?_⟩
  · intro store vl depositor dl oid h
    simp [solVaultDeposit, h]
  · intro store vl depositor dl amount h hamt
    simp [solVaultDeposit, h, hamt]
    intro hf
    exact absurd hf (by decide)
  · intro st store vta user utb oid received h
    simp [splDeposit, h]
  · intro st store vta user utb amount received h hamt
    simp [splDeposit, h, hamt]
    intro hf
    exact absurd hf (by decide)
  · intro st store vta user utb oid received h
    simp [lcDeposit, h]
  · intro st store vl depositor dl oid h
    simp [solDepDeposit, h]

/-- Witness for C8's amended theorem: the six rejections at concrete
inputs. -/
theorem c8_deposit_validation_amended_witness :
    solVaultDeposit [] 5 8 9 "o" 0 = .error .InvalidAmount
    ∧ solVaultDeposit [] 5 8 9 "" 3 = .error .OrderIdEmpty
    ∧ splDeposit ⟨1, 2, 7⟩ [] 5 8 9 "o" 0 0 = .error .InvalidAmount
    ∧ splDeposit ⟨1, 2, 7⟩ [] 5 8 9 "" 3 3 = .error .OrderIdEmpty
    ∧ lcDeposit ⟨1, 2, 7, 5⟩ [] 5 8 9 "o" 0 0 = .error .InvalidAmount
    ∧ solDepDeposit ⟨7, 5, 1⟩ [] 5 8 9 "o" 0 = .error .InvalidAmount :=
  ⟨c8_deposit_validation_amended.1 [] 5 8 9 "o" (by decide),
    c8_deposit_validation_amended.2.1 [] 5 8 9 3 (by decide) (by decide),
    c8_deposit_validation_amended.2.2.1 ⟨1, 2, 7⟩ [] 5 8 9 "o" 0 (by decide),
    c8_deposit_validation_amended.2.2.2.1 ⟨1, 2, 7⟩ [] 5 8 9 3 3 (by decide)
      (by decide),
    c8_deposit_validation_amended.2.2.2.2.1 ⟨1, 2, 7, 5⟩ [] 5 8 9 "o" 0
      (by decide),
    c8_deposit_validation_amended.2.2.2.2.2 ⟨7, 5, 1⟩ [] 5 8 9 "o" (by decide)⟩

end DegenSafe
